import Mathlib

/-!
Verification development for the Zaber stage-control scripts
(`zaber_t_omg.py` for the rotary T-OMG stage and `zaber_x_lsm025a.py` for the
linear X-LSM025A stage).  Both scripts build 6-byte Zaber binary frames
`[deviceByte, commandByte, data0, data1, data2, data3]` by manipulating Python
hexadecimal strings.  The definitions below embed that string manipulation
faithfully: a Python `hex` string is modelled as its list of hexadecimal
digits, string slicing as list operations, and a call `int(s, 16)` that would
raise `ValueError` (empty slice, or a slice containing a non-digit character
such as `x` or `-`) is modelled as `none`.
-/

/-- Little-endian hexadecimal digits of `n` (least significant first), computed
with explicit fuel so that the definition is structural and kernel-reducible.
Fuel `n` is always sufficient, because a number `n ≥ 1` has at most `n`
hexadecimal digits. -/
def hexDigitsLE : ℕ → ℕ → List ℕ
  | 0, _ => []
  | fuel + 1, n => if n = 0 then [] else n % 16 :: hexDigitsLE fuel (n / 16)

/-- The digit string of Python `hex(n)` for `n ≥ 0`, without the `0x` prefix:
most significant digit first, and `hex(0)` is `"0"`. -/
def pyHexDigits (n : ℕ) : List ℕ :=
  if n = 0 then [0] else (hexDigitsLE n n).reverse

/-- Python string slice `s[a:b]` on a digit string. -/
def pySlice (l : List ℕ) (a b : ℕ) : List ℕ :=
  (l.drop a).take (b - a)

/-- Python slice `s[-k:]` (the last `k` characters) on a digit string of length
at least `k`. -/
def lastChars (k : ℕ) (l : List ℕ) : List ℕ :=
  (l.reverse.take k).reverse

/-- Python `int(s, 16)` on a digit string: raises `ValueError` (modelled as
`none`) on the empty string, otherwise folds the digits. -/
def pyIntHex (l : List ℕ) : Option ℕ :=
  if l = [] then none else some (l.foldl (fun a d => 16 * a + d) 0)

/-! ## Device-id byte (both files)

Both scripts translate the `device_id` argument to the first frame byte with
the same four-branch `if`/`elif` chain: ids 0, 1, 2 pass through, and every
other id produces the literal byte 3. -/

/-- First frame byte from `device_id` in `zaber_t_omg.py` (`send_home`,
`move_to_relative`, `get_current_position` all use this chain). -/
def t_omg_deviceByte (device_id : ℤ) : ℕ :=
  if device_id = 0 then 0x00
  else if device_id = 1 then 0x01
  else if device_id = 2 then 0x02
  else 0x03

/-- First frame byte from `device_id` in `zaber_x_lsm025a.py`. -/
def x_lsm_deviceByte (device_id : ℤ) : ℕ :=
  if device_id = 0 then 0x00
  else if device_id = 1 then 0x01
  else if device_id = 2 then 0x02
  else 0x03

/-- The 6-byte frame written by `send_home` in `zaber_t_omg.py`:
device byte, command byte 0x01 (home), four zero data bytes. -/
def t_omg_send_home (device_id : ℤ) : List ℕ :=
  [t_omg_deviceByte device_id, 0x01, 0x00, 0x00, 0x00, 0x00]

/-- The 6-byte frame written by `send_home` in `zaber_x_lsm025a.py`. -/
def x_lsm_send_home (device_id : ℤ) : List ℕ :=
  [x_lsm_deviceByte device_id, 0x01, 0x00, 0x00, 0x00, 0x00]

/-! ## Rotary stage (`zaber_t_omg.py`) move-relative payload -/

/-- Byte-length control of the positive branch of `move_to_relative` in
`zaber_t_omg.py` (lines 201-206): a 1-digit string is padded with `"000"`,
then a 2-digit string with `"00"`, else a 3-digit string with `"0"`. -/
def t_omg_padHex (h : List ℕ) : List ℕ :=
  let h1 := if h.length = 1 then 0 :: 0 :: 0 :: h else h
  if h1.length = 2 then 0 :: 0 :: h1
  else if h1.length = 3 then 0 :: h1
  else h1

/-- Positive branch of `move_to_relative` in `zaber_t_omg.py` (lines 192-215):
`data_hex = hex(data)[2:]` is padded to four digits and the frame gets the
bytes `int(data_hex[2:4], 16)`, `int(data_hex[0:2], 16)`, `0x00`, `0x00`.
For `data < 0` the string `hex(data)[2:]` starts with the character `x`
(`hex(-5)` is `"-0x5"`), so one of the `int(_, 16)` calls raises `ValueError`,
modelled as `none`. -/
def t_omg_posPayload (data : ℤ) : Option (List ℕ) :=
  if data < 0 then none
  else
    let dh := t_omg_padHex (pyHexDigits data.toNat)
    match pyIntHex (pySlice dh 2 4), pyIntHex (pySlice dh 0 2) with
    | some b0, some b1 => some [b0, b1, 0x00, 0x00]
    | _, _ => none

/-- Negative branch of `move_to_relative` in `zaber_t_omg.py` (lines 218-238):
`data_hex = hex(data + (1 << 32))[-4:]` and the frame gets the bytes
`int(data_hex[2:4], 16)`, `int(data_hex[0:2], 16)`, `0xFF`, `0xFF`.
The slice `[-4:]` of the Python string consists of four hexadecimal digits
exactly when `|data + 2^32|` has at least four of them (the string carries a
`0x` or `-0x` prefix); otherwise a prefix character lands in one of the two
2-character slices and `int(_, 16)` raises `ValueError`, modelled as `none`. -/
def t_omg_negPayload (data : ℤ) : Option (List ℕ) :=
  let n := data + 4294967296
  if n.natAbs < 4096 then none
  else
    let dh := lastChars 4 (pyHexDigits n.natAbs)
    match pyIntHex (pySlice dh 2 4), pyIntHex (pySlice dh 0 2) with
    | some b0, some b1 => some [b0, b1, 0xFF, 0xFF]
    | _, _ => none

/-- The four data bytes of the `move_to_relative` frame of `zaber_t_omg.py` as
a function of the computed step count `s` (`data` in the source).  The source
selects the branch by `theta > 0`; on the domain `(-90°, 90°)` the step count
`s = int(tan(theta·π/180)·A·R/L)` is positive only when `theta > 0` and
negative only when `theta < 0`, and `theta = 0` yields `s = 0` in the `else`
branch, so branching on `0 < s` agrees with the source at every reachable
pair except a positive `theta` small enough that `s = 0` (where the source
takes the positive branch; no claim touches that corner, and the
angle-level function below keeps the source's branch on `theta`). -/
def t_omg_movePayload (s : ℤ) : Option (List ℕ) :=
  if 0 < s then t_omg_posPayload s else t_omg_negPayload s

/-! ## Linear stage (`zaber_x_lsm025a.py`) move-relative payload -/

/-- Byte-length control of the positive branch of `move_to_relative` in
`zaber_x_lsm025a.py` (lines 146-147): only a 3-digit string is padded. -/
def x_lsm_padHex (h : List ℕ) : List ℕ :=
  if h.length = 3 then 0 :: h else h

/-- Positive branch of `move_to_relative` in `zaber_x_lsm025a.py` (lines
141-156).  Unlike the rotary script, the bytes are appended in the order
`int(data_hex[0:2], 16)`, `int(data_hex[2:4], 16)` (most significant data
byte first), and 1- or 2-digit strings are not padded, so for those the slice
`data_hex[2:4]` is empty and `int('', 16)` raises `ValueError` (`none`). -/
def x_lsm_posPayload (data : ℤ) : Option (List ℕ) :=
  if data < 0 then none
  else
    let dh := x_lsm_padHex (pyHexDigits data.toNat)
    match pyIntHex (pySlice dh 0 2), pyIntHex (pySlice dh 2 4) with
    | some b0, some b1 => some [b0, b1, 0x00, 0x00]
    | _, _ => none

/-- Negative branch of `move_to_relative` in `zaber_x_lsm025a.py` (lines
157-174): as in the rotary script `data_hex = hex(data + (1 << 32))[-4:]`,
but again the two data bytes are appended in the order `[0:2]`, `[2:4]`. -/
def x_lsm_negPayload (data : ℤ) : Option (List ℕ) :=
  let n := data + 4294967296
  if n.natAbs < 4096 then none
  else
    let dh := lastChars 4 (pyHexDigits n.natAbs)
    match pyIntHex (pySlice dh 0 2), pyIntHex (pySlice dh 2 4) with
    | some b0, some b1 => some [b0, b1, 0xFF, 0xFF]
    | _, _ => none

/-- The four data bytes of the `move_to_relative` frame of `zaber_x_lsm025a.py`
as a function of the computed step count `s`.  The source branches on
`rel_pos > 0`; since `rel_pos` is an integer and the microstep is 0.047625,
a positive `rel_pos` always gives `s ≥ 20` and a non-positive one `s ≤ 0`,
so branching on `0 < s` agrees with the source at every reachable pair. -/
def x_lsm_movePayload (s : ℤ) : Option (List ℕ) :=
  if 0 < s then x_lsm_posPayload s else x_lsm_negPayload s

/-! ## Spec-side reference encodings -/

/-- Little-endian two's-complement encoding of a step count, as the spec
describes the payload: byte0 = `s & 0xFF`, byte1 = `(s>>8) & 0xFF`,
byte2 = `(s>>16) & 0xFF`, byte3 = `(s>>24) & 0xFF` of the 32-bit value.
This definition follows the spec's words and is compared against the
source-derived payload functions above. -/
def leBytes (s : ℤ) : List ℕ :=
  let u := (s % 4294967296).toNat
  [u % 256, u / 256 % 256, u / 65536 % 256, u / 16777216 % 256]

/-- Swap the first two entries of a byte list; used to describe the
high-byte-first order in which `zaber_x_lsm025a.py` emits the two data
bytes. -/
def swapTwo : List ℕ → List ℕ
  | b0 :: b1 :: t => b1 :: b0 :: t
  | l => l

/-- Modelled from the spec: `decodeGetPositionReply` interprets four payload
bytes as a signed 32-bit little-endian integer.  The source's
`get_current_position` returns the raw reply without decoding it
(its hex-to-angle conversion is a `TODO`), so this decoder is taken from the
spec's words. -/
def decodeSteps (b : List ℕ) : ℤ :=
  let u := b.getD 0 0 + 256 * b.getD 1 0 + 65536 * b.getD 2 0
    + 16777216 * b.getD 3 0
  if u < 2147483648 then (u : ℤ) else (u : ℤ) - 4294967296

/-- Error raised on a malformed get-position reply. -/
inductive ReplyError
  | malformedReply
deriving DecidableEq

/-- Modelled from the spec: `decodeGetPositionReply(rawBytes)` requires at
least 6 bytes (device id, command code, four little-endian payload bytes) and
fails with `MalformedReplyError` on shorter input; the source's
`get_current_position` has no decoder at all and returns whatever bytes
`readline` produced. -/
def decodeGetPositionReply (raw : List ℕ) :
    Except ReplyError (ℕ × ℕ × ℤ) :=
  if raw.length < 6 then .error .malformedReply
  else .ok (raw.getD 0 0, raw.getD 1 0, decodeSteps (pySlice raw 2 6))

/-! ## Linear stage: full `move_to_relative` with its port argument -/

/-- Truncating conversion of Python `int(...)` applied to a number:
rounds toward zero. -/
def pyIntQ (q : ℚ) : ℤ :=
  if 0 ≤ q then ⌊q⌋ else ⌈q⌉

/-- `microstep = 0.047625`, the microstep of the model X-LSM025A
(`zaber_x_lsm025a.py` line 126). -/
def x_lsm_microstep : ℚ := 47625 / 1000000

/-- `data = int(rel_pos / microstep)` in `move_to_relative` of
`zaber_x_lsm025a.py` (the float division is modelled exactly over ℚ). -/
def x_lsm_data (rel_pos : ℤ) : ℤ :=
  pyIntQ ((rel_pos : ℚ) / x_lsm_microstep)

/-- Observable effect of `move_to_relative(rel_pos, device_id, port)` in
`zaber_x_lsm025a.py`: the name of the serial port it opens and the frame it
writes (`none` when building the payload raises `ValueError`).  The source
opens the literal string `'COM5'` (line 179); the `port` parameter is never
used. -/
def x_lsm_move_to_relative (rel_pos device_id : ℤ) (port : String) :
    String × Option (List ℕ) :=
  let data := x_lsm_data rel_pos
  let payload :=
    if 0 < rel_pos then x_lsm_posPayload data else x_lsm_negPayload data
  ("COM5",
    payload.map fun p => x_lsm_deviceByte device_id :: 0x15 :: p)

/-! ## Rotary stage: the angle-to-steps conversion over ℝ

The scripts do this arithmetic in IEEE float64; it is idealised here over ℝ
(`np.tan` as `Real.tan`, `np.pi` as `Real.pi`), which is the only part of the
embedding that is not bit-exact. -/

/-- Python `int(...)` applied to a real number: truncation toward zero. -/
noncomputable def pyInt (x : ℝ) : ℤ :=
  if 0 ≤ x then ⌊x⌋ else ⌈x⌉

/-- `L = 1.524e-6`, the linear motion for one full step of the actuator
(`zaber_t_omg.py` line 185). -/
noncomputable def t_omg_L : ℝ := 1524 / 10 ^ 9

/-- `A = 11825e-6`, the azimuthal lever arm, selected when `device_id == 1`
(`zaber_t_omg.py` line 180). -/
noncomputable def t_omg_A_azimuth : ℝ := 11825 / 10 ^ 6

/-- `A = 23650e-6`, the elevation lever arm, selected when `device_id == 2`
(`zaber_t_omg.py` line 182). -/
noncomputable def t_omg_A_elevation : ℝ := 23650 / 10 ^ 6

/-- Lever arm `A` selected from the device id (`zaber_t_omg.py` lines
179-182); any other id leaves `A` unassigned, so its later use raises
`NameError`, modelled as `none`. -/
noncomputable def t_omg_Aof (device_id : ℤ) : Option ℝ :=
  if device_id = 1 then some t_omg_A_azimuth
  else if device_id = 2 then some t_omg_A_elevation
  else none

/-- `data = int(np.tan(theta * deg_to_rad) * A * R / L)` with
`deg_to_rad = np.pi / 180` and `R = 64` (`zaber_t_omg.py` lines 184-195
and 221). -/
noncomputable def t_omg_steps (A theta : ℝ) : ℤ :=
  pyInt (Real.tan (theta * (Real.pi / 180)) * A * 64 / t_omg_L)

/-- The four data bytes of `move_to_relative` in `zaber_t_omg.py` as a
function of the input angle `theta` (degrees), keeping the source's branch on
`theta > 0`. -/
noncomputable def t_omg_movePayloadTheta (device_id : ℤ) (theta : ℝ) :
    Option (List ℕ) :=
  (t_omg_Aof device_id).bind fun A =>
    if 0 < theta then t_omg_posPayload (t_omg_steps A theta)
    else t_omg_negPayload (t_omg_steps A theta)

/-- The full 6-byte `move_to_relative` frame of `zaber_t_omg.py`:
device byte, command byte 0x15 (21, move relative), four data bytes. -/
noncomputable def t_omg_move_to_relative (device_id : ℤ) (theta : ℝ) :
    Option (List ℕ) :=
  (t_omg_movePayloadTheta device_id theta).map
    fun p => t_omg_deviceByte device_id :: 0x15 :: p

/-! ## Digit-string lemmas -/

theorem hexDigitsLE_zero (f : ℕ) : hexDigitsLE f 0 = [] := by
  cases f <;> simp [hexDigitsLE]

theorem hexDigitsLE_cons (f n : ℕ) (h : n ≠ 0) :
    hexDigitsLE (f + 1) n = n % 16 :: hexDigitsLE f (n / 16) := by
  simp [hexDigitsLE, h]

theorem pyHexDigits_len1 (n : ℕ) (h1 : 1 ≤ n) (h2 : n ≤ 15) :
    pyHexDigits n = [n] := by
  unfold pyHexDigits
  rw [if_neg (by omega)]
  obtain ⟨f, rfl⟩ : ∃ f, n = f + 1 := ⟨n - 1, by omega⟩
  rw [hexDigitsLE_cons _ _ (by omega), show (f + 1) / 16 = 0 by omega,
    hexDigitsLE_zero]
  simp
  omega

theorem pyHexDigits_len2 (n : ℕ) (h1 : 16 ≤ n) (h2 : n ≤ 255) :
    pyHexDigits n = [n / 16, n % 16] := by
  unfold pyHexDigits
  rw [if_neg (by omega)]
  obtain ⟨f, rfl⟩ : ∃ f, n = f + 2 := ⟨n - 2, by omega⟩
  rw [hexDigitsLE_cons _ _ (by omega), hexDigitsLE_cons _ _ (by omega),
    show (f + 2) / 16 / 16 = 0 by omega, hexDigitsLE_zero]
  simp
  omega

theorem pyHexDigits_len3 (n : ℕ) (h1 : 256 ≤ n) (h2 : n ≤ 4095) :
    pyHexDigits n = [n / 256, n / 16 % 16, n % 16] := by
  unfold pyHexDigits
  rw [if_neg (by omega)]
  obtain ⟨f, rfl⟩ : ∃ f, n = f + 3 := ⟨n - 3, by omega⟩
  rw [hexDigitsLE_cons _ _ (by omega), hexDigitsLE_cons _ _ (by omega),
    hexDigitsLE_cons _ _ (by omega),
    show (f + 3) / 16 / 16 / 16 = 0 by omega, hexDigitsLE_zero]
  simp
  omega

theorem pyHexDigits_len4 (n : ℕ) (h1 : 4096 ≤ n) (h2 : n ≤ 65535) :
    pyHexDigits n = [n / 4096, n / 256 % 16, n / 16 % 16, n % 16] := by
  unfold pyHexDigits
  rw [if_neg (by omega)]
  obtain ⟨f, rfl⟩ : ∃ f, n = f + 4 := ⟨n - 4, by omega⟩
  rw [hexDigitsLE_cons _ _ (by omega), hexDigitsLE_cons _ _ (by omega),
    hexDigitsLE_cons _ _ (by omega), hexDigitsLE_cons _ _ (by omega),
    show (f + 4) / 16 / 16 / 16 / 16 = 0 by omega, hexDigitsLE_zero]
  simp
  omega

/-- The last four characters of the digit string of a number with at least
four hexadecimal digits are the digits of its value modulo `16^4`. -/
theorem pyHexDigits_lastFour (n : ℕ) (h : 4096 ≤ n) :
    lastChars 4 (pyHexDigits n) =
      [n / 4096 % 16, n / 256 % 16, n / 16 % 16, n % 16] := by
  unfold pyHexDigits lastChars
  rw [if_neg (by omega), List.reverse_reverse]
  obtain ⟨f, rfl⟩ : ∃ f, n = f + 4 := ⟨n - 4, by omega⟩
  rw [hexDigitsLE_cons _ _ (by omega), hexDigitsLE_cons _ _ (by omega),
    hexDigitsLE_cons _ _ (by omega), hexDigitsLE_cons _ _ (by omega)]
  simp
  omega

/-! ## Payload evaluation on the ranges the scripts handle -/

theorem t_omg_posPayload_eq (s : ℤ) (h1 : 1 ≤ s) (h2 : s ≤ 65535) :
    t_omg_posPayload s = some [s.toNat % 256, s.toNat / 256, 0x00, 0x00] := by
  unfold t_omg_posPayload
  rw [if_neg (by omega)]
  have hm1 : 1 ≤ s.toNat := by omega
  have hm2 : s.toNat ≤ 65535 := by omega
  rcases (by omega :
      s.toNat ≤ 15 ∨ (16 ≤ s.toNat ∧ s.toNat ≤ 255) ∨
      (256 ≤ s.toNat ∧ s.toNat ≤ 4095) ∨ 4096 ≤ s.toNat) with h | h | h | h
  · rw [pyHexDigits_len1 _ hm1 h]
    simp [t_omg_padHex, pySlice, pyIntHex]
    omega
  · rw [pyHexDigits_len2 _ h.1 h.2]
    simp [t_omg_padHex, pySlice, pyIntHex]
    omega
  · rw [pyHexDigits_len3 _ h.1 h.2]
    simp [t_omg_padHex, pySlice, pyIntHex]
    omega
  · rw [pyHexDigits_len4 _ h hm2]
    simp [t_omg_padHex, pySlice, pyIntHex]
    omega

theorem t_omg_negPayload_eq (s : ℤ) (h1 : -65536 ≤ s) (h2 : s ≤ -1) :
    t_omg_negPayload s =
      some [(s + 4294967296).toNat % 256,
        (s + 4294967296).toNat / 256 % 256, 0xFF, 0xFF] := by
  unfold t_omg_negPayload
  rw [if_neg (by omega)]
  have habs : (s + 4294967296).natAbs = (s + 4294967296).toNat := by omega
  rw [habs, pyHexDigits_lastFour _ (by omega)]
  simp [pySlice, pyIntHex]
  omega

theorem x_lsm_posPayload_small (s : ℤ) (h1 : 1 ≤ s) (h2 : s ≤ 255) :
    x_lsm_posPayload s = none := by
  unfold x_lsm_posPayload
  rw [if_neg (by omega)]
  rcases (by omega : s.toNat ≤ 15 ∨ 16 ≤ s.toNat) with h | h
  · rw [pyHexDigits_len1 _ (by omega) h]
    simp [x_lsm_padHex, pySlice, pyIntHex]
  · rw [pyHexDigits_len2 _ h (by omega)]
    simp [x_lsm_padHex, pySlice, pyIntHex]

theorem x_lsm_posPayload_eq (s : ℤ) (h1 : 256 ≤ s) (h2 : s ≤ 65535) :
    x_lsm_posPayload s = some [s.toNat / 256, s.toNat % 256, 0x00, 0x00] := by
  unfold x_lsm_posPayload
  rw [if_neg (by omega)]
  rcases (by omega : (256 ≤ s.toNat ∧ s.toNat ≤ 4095) ∨ 4096 ≤ s.toNat) with
    h | h
  · rw [pyHexDigits_len3 _ h.1 h.2]
    simp [x_lsm_padHex, pySlice, pyIntHex]
    omega
  · rw [pyHexDigits_len4 _ h (by omega)]
    simp [x_lsm_padHex, pySlice, pyIntHex]
    omega

theorem x_lsm_negPayload_eq (s : ℤ) (h1 : -65536 ≤ s) (h2 : s ≤ -1) :
    x_lsm_negPayload s =
      some [(s + 4294967296).toNat / 256 % 256,
        (s + 4294967296).toNat % 256, 0xFF, 0xFF] := by
  unfold x_lsm_negPayload
  rw [if_neg (by omega)]
  have habs : (s + 4294967296).natAbs = (s + 4294967296).toNat := by omega
  rw [habs, pyHexDigits_lastFour _ (by omega)]
  simp [pySlice, pyIntHex]
  omega

/-! ## Spec-side encoding on the same ranges -/

theorem leBytes_pos (s : ℤ) (h1 : 0 ≤ s) (h2 : s ≤ 65535) :
    leBytes s = [s.toNat % 256, s.toNat / 256, 0x00, 0x00] := by
  simp only [leBytes]
  have : s % 4294967296 = s := by omega
  rw [this]
  simp only [List.cons.injEq, and_true, true_and]
  omega

theorem leBytes_neg (s : ℤ) (h1 : -65536 ≤ s) (h2 : s ≤ -1) :
    leBytes s = [(s + 4294967296).toNat % 256,
      (s + 4294967296).toNat / 256 % 256, 0xFF, 0xFF] := by
  simp only [leBytes]
  have : s % 4294967296 = s + 4294967296 := by omega
  rw [this]
  simp only [List.cons.injEq, and_true, true_and]
  omega


/-- The step count the linear script computes for `rel_pos = 1`. -/
theorem x_lsm_data_one : x_lsm_data 1 = 20 := by
  unfold x_lsm_data pyIntQ x_lsm_microstep
  rw [if_pos (by norm_num), Int.floor_eq_iff]
  norm_num

/-! ## Shape of the payloads whenever one is produced -/

theorem t_omg_posPayload_shape (d : ℤ) (p : List ℕ)
    (h : t_omg_posPayload d = some p) : ∃ b0 b1, p = [b0, b1, 0x00, 0x00] := by
  simp only [t_omg_posPayload] at h
  split at h
  · simp at h
  · split at h
    · exact ⟨_, _, (Option.some.inj h).symm⟩
    · simp at h

theorem t_omg_negPayload_shape (d : ℤ) (p : List ℕ)
    (h : t_omg_negPayload d = some p) : ∃ b0 b1, p = [b0, b1, 0xFF, 0xFF] := by
  simp only [t_omg_negPayload] at h
  split at h
  · simp at h
  · split at h
    · exact ⟨_, _, (Option.some.inj h).symm⟩
    · simp at h

theorem x_lsm_posPayload_shape (d : ℤ) (p : List ℕ)
    (h : x_lsm_posPayload d = some p) : ∃ b0 b1, p = [b0, b1, 0x00, 0x00] := by
  simp only [x_lsm_posPayload] at h
  split at h
  · simp at h
  · split at h
    · exact ⟨_, _, (Option.some.inj h).symm⟩
    · simp at h

theorem x_lsm_negPayload_shape (d : ℤ) (p : List ℕ)
    (h : x_lsm_negPayload d = some p) : ∃ b0 b1, p = [b0, b1, 0xFF, 0xFF] := by
  simp only [x_lsm_negPayload] at h
  split at h
  · simp at h
  · split at h
    · exact ⟨_, _, (Option.some.inj h).symm⟩
    · simp at h

/-- Evaluation of the spec-modelled decoder on an explicit 4-byte payload. -/
theorem decodeSteps_eq (b0 b1 b2 b3 : ℕ) :
    decodeSteps [b0, b1, b2, b3] =
      if b0 + 256 * b1 + 65536 * b2 + 16777216 * b3 < 2147483648
      then ((b0 + 256 * b1 + 65536 * b2 + 16777216 * b3 : ℕ) : ℤ)
      else ((b0 + 256 * b1 + 65536 * b2 + 16777216 * b3 : ℕ) : ℤ)
        - 4294967296 := rfl

/-! ## Claim theorems -/

/-- Claim C4: for every device id in {0, 1, 2} the first byte of the encoded
home frame equals the id itself, and for every other id the first byte is the
literal value 3, in both scripts. -/
theorem C4_device_id_first_byte (d : ℤ) :
    ((d = 0 ∨ d = 1 ∨ d = 2) →
      ((t_omg_send_home d).getD 0 4 : ℤ) = d ∧
      ((x_lsm_send_home d).getD 0 4 : ℤ) = d) ∧
    (¬(d = 0 ∨ d = 1 ∨ d = 2) →
      (t_omg_send_home d).getD 0 4 = 3 ∧
      (x_lsm_send_home d).getD 0 4 = 3) := by
  unfold t_omg_send_home x_lsm_send_home t_omg_deviceByte x_lsm_deviceByte
  split_ifs with h0 h1 h2 <;> simp_all

theorem C4_device_id_first_byte_witness :
    ((t_omg_send_home 2).getD 0 4 : ℤ) = 2 ∧
    (t_omg_send_home 7).getD 0 4 = 3 :=
  ⟨((C4_device_id_first_byte 2).1 (by decide)).1,
    ((C4_device_id_first_byte 7).2 (by decide)).1⟩

/-- Claim C7: decoding a get-position reply fails with `MalformedReplyError`
whenever the raw input contains fewer than 6 bytes.  (The decoder is modelled
from the spec; the source's `get_current_position` returns the raw bytes
without decoding them.) -/
theorem C7_short_reply_malformed (raw : List ℕ) (h : raw.length < 6) :
    decodeGetPositionReply raw = .error .malformedReply := by
  unfold decodeGetPositionReply
  rw [if_pos h]

theorem C7_short_reply_malformed_witness :
    decodeGetPositionReply [1, 60, 0, 0, 0] = .error .malformedReply :=
  C7_short_reply_malformed [1, 60, 0, 0, 0] (by decide)

/-- Claim C10: the linear-stage `move_to_relative` ignores its `port`
parameter: for any two port arguments (same `rel_pos` and `device_id`) it
opens the same hard-coded port name `'COM5'` and produces the identical
observable effect. -/
theorem C10_port_parameter_ignored (r d : ℤ) (port1 port2 : String) :
    x_lsm_move_to_relative r d port1 = x_lsm_move_to_relative r d port2 ∧
    (x_lsm_move_to_relative r d port1).1 = "COM5" :=
  ⟨rfl, rfl⟩

/-- Claim C8: in the linear script, every positive `rel_pos` whose computed
step count is at most 255 (hence whose hexadecimal representation has fewer
than 3 digits) makes `move_to_relative` raise `ValueError` while building the
payload (the slice `data_hex[2:4]` is empty), so no frame is produced. -/
theorem C8_small_positive_value_error (r : ℤ) (hr : 0 < r)
    (hdata : x_lsm_data r ≤ 255) :
    1 ≤ x_lsm_data r ∧ (pyHexDigits (x_lsm_data r).toNat).length < 3 ∧
    (x_lsm_move_to_relative r 1 "COM5").2 = none := by
  have hq : (20 : ℚ) ≤ (r : ℚ) / x_lsm_microstep := by
    rw [x_lsm_microstep, le_div_iff₀ (by norm_num)]
    have hr1 : (1 : ℚ) ≤ (r : ℚ) := by exact_mod_cast hr
    nlinarith
  have h20 : 20 ≤ x_lsm_data r := by
    unfold x_lsm_data pyIntQ
    rw [if_pos (le_trans (by norm_num) hq)]
    exact Int.le_floor.mpr (by exact_mod_cast hq)
  refine ⟨by omega, ?_, ?_⟩
  · rcases (by omega :
        (x_lsm_data r).toNat ≤ 15 ∨ 16 ≤ (x_lsm_data r).toNat) with h | h
    · rw [pyHexDigits_len1 _ (by omega) h]
      simp
    · rw [pyHexDigits_len2 _ h (by omega)]
      simp
  · simp only [x_lsm_move_to_relative]
    rw [if_pos hr, x_lsm_posPayload_small _ (by omega) hdata]
    rfl

theorem C8_small_positive_value_error_witness :
    1 ≤ x_lsm_data 1 ∧ (pyHexDigits (x_lsm_data 1).toNat).length < 3 ∧
    (x_lsm_move_to_relative 1 1 "COM5").2 = none :=
  C8_small_positive_value_error 1 (by decide)
    (by rw [x_lsm_data_one]; decide)

/-- Claim C3: in both scripts' move-relative encoding, whenever a payload is
produced its upper two bytes are hard-coded — 0x00 for a positive step count
and 0xFF for a negative one — and a step count of -1 produces the payload
[0xFF, 0xFF, 0xFF, 0xFF]. -/
theorem C3_upper_bytes_hardcoded :
    (∀ (s : ℤ) (p : List ℕ), t_omg_movePayload s = some p →
      (0 < s → pySlice p 2 4 = [0x00, 0x00]) ∧
      (s < 0 → pySlice p 2 4 = [0xFF, 0xFF])) ∧
    (∀ (s : ℤ) (p : List ℕ), x_lsm_movePayload s = some p →
      (0 < s → pySlice p 2 4 = [0x00, 0x00]) ∧
      (s < 0 → pySlice p 2 4 = [0xFF, 0xFF])) ∧
    t_omg_movePayload (-1) = some [0xFF, 0xFF, 0xFF, 0xFF] ∧
    x_lsm_movePayload (-1) = some [0xFF, 0xFF, 0xFF, 0xFF] := by
  refine ⟨?_, ?_, by decide, by decide⟩
  · intro s p hp
    unfold t_omg_movePayload at hp
    constructor
    · intro hs
      rw [if_pos hs] at hp
      obtain ⟨b0, b1, rfl⟩ := t_omg_posPayload_shape _ _ hp
      rfl
    · intro hs
      rw [if_neg (by omega)] at hp
      obtain ⟨b0, b1, rfl⟩ := t_omg_negPayload_shape _ _ hp
      rfl
  · intro s p hp
    unfold x_lsm_movePayload at hp
    constructor
    · intro hs
      rw [if_pos hs] at hp
      obtain ⟨b0, b1, rfl⟩ := x_lsm_posPayload_shape _ _ hp
      rfl
    · intro hs
      rw [if_neg (by omega)] at hp
      obtain ⟨b0, b1, rfl⟩ := x_lsm_negPayload_shape _ _ hp
      rfl

theorem C3_upper_bytes_hardcoded_witness :
    pySlice [44, 1, 0, 0] 2 4 = [0x00, 0x00] :=
  (C3_upper_bytes_hardcoded.1 300 [44, 1, 0, 0] (by decide)).1 (by decide)

/-- Claim C1 (amended): for every nonzero step count `s` inside the 16-bit
window `-65536 ≤ s ≤ 65535`, the rotary script's payload is the little-endian
two's-complement encoding of `s`, while the linear script emits the two data
bytes in the opposite order (most significant first) and raises `ValueError`
for `1 ≤ s ≤ 255`.  Outside that window the payloads are not the little-endian
encoding (see the counterexample). -/
theorem C1_payload_le_encoding (s : ℤ) (hlo : -65536 ≤ s) (hhi : s ≤ 65535)
    (hne : s ≠ 0) :
    t_omg_movePayload s = some (leBytes s) ∧
    x_lsm_movePayload s =
      (if 1 ≤ s ∧ s ≤ 255 then none else some (swapTwo (leBytes s))) := by
  unfold t_omg_movePayload x_lsm_movePayload
  rcases (by omega : (1 ≤ s ∧ s ≤ 255) ∨ (256 ≤ s ∧ s ≤ 65535) ∨
      (-65536 ≤ s ∧ s ≤ -1)) with h | h | h
  · rw [if_pos (by omega), if_pos (by omega), if_pos (by omega),
      t_omg_posPayload_eq s (by omega) (by omega),
      leBytes_pos s (by omega) (by omega),
      x_lsm_posPayload_small s h.1 h.2]
    exact ⟨rfl, rfl⟩
  · rw [if_pos (by omega), if_pos (by omega), if_neg (by omega),
      t_omg_posPayload_eq s (by omega) (by omega),
      leBytes_pos s (by omega) (by omega),
      x_lsm_posPayload_eq s h.1 h.2]
    exact ⟨rfl, rfl⟩
  · rw [if_neg (by omega), if_neg (by omega), if_neg (by omega),
      t_omg_negPayload_eq s h.1 h.2,
      leBytes_neg s h.1 h.2,
      x_lsm_negPayload_eq s h.1 h.2]
    exact ⟨rfl, rfl⟩

theorem C1_payload_le_encoding_witness :
    t_omg_movePayload (-1) = some (leBytes (-1)) ∧
    x_lsm_movePayload (-1) =
      (if 1 ≤ (-1 : ℤ) ∧ (-1 : ℤ) ≤ 255 then none
       else some (swapTwo (leBytes (-1)))) :=
  C1_payload_le_encoding (-1) (by decide) (by decide) (by decide)

/-- Claim C1 is false as stated: at step count 65536 the rotary payload is
not the little-endian encoding (the script splits the 5-digit hex string at
the wrong places), and at step count -2 the linear payload has its two data
bytes swapped. -/
theorem C1_counterexample :
    t_omg_movePayload 65536 ≠ some (leBytes 65536) ∧
    x_lsm_movePayload (-2) ≠ some (leBytes (-2)) := by decide

/-- Claim C2 (amended): decode-after-encode is the identity on the nonzero
step counts in the 16-bit window `-65536 ≤ s ≤ 65535` for the rotary script;
outside it information is lost (see the counterexample). -/
theorem C2_roundtrip (s : ℤ) (hlo : -65536 ≤ s) (hhi : s ≤ 65535)
    (hne : s ≠ 0) (p : List ℕ) (hp : t_omg_movePayload s = some p) :
    decodeSteps p = s := by
  unfold t_omg_movePayload at hp
  rcases (by omega : (1 ≤ s ∧ s ≤ 65535) ∨ (-65536 ≤ s ∧ s ≤ -1)) with h | h
  · rw [if_pos (by omega), t_omg_posPayload_eq s h.1 h.2] at hp
    obtain rfl := (Option.some.inj hp).symm
    rw [decodeSteps_eq]
    split_ifs with hu <;> omega
  · rw [if_neg (by omega), t_omg_negPayload_eq s h.1 h.2] at hp
    obtain rfl := (Option.some.inj hp).symm
    rw [decodeSteps_eq]
    split_ifs with hu <;> omega

theorem C2_roundtrip_witness : decodeSteps [5, 0, 0, 0] = 5 :=
  C2_roundtrip 5 (by decide) (by decide) (by decide) [5, 0, 0, 0] (by decide)

/-- Claim C2 is false as stated: encoding step count 65536 and decoding the
payload yields 4096, not 65536. -/
theorem C2_counterexample :
    (t_omg_movePayload 65536).map decodeSteps = some 4096 ∧
    (4096 : ℤ) ≠ 65536 := by decide

/-! ## Sign behaviour of the Python truncation -/

theorem pyInt_nonneg (x : ℝ) (h : 0 ≤ x) : 0 ≤ pyInt x := by
  unfold pyInt
  rw [if_pos h]
  exact Int.floor_nonneg.mpr h

theorem pyInt_nonpos (x : ℝ) (h : x ≤ 0) : pyInt x ≤ 0 := by
  unfold pyInt
  split_ifs with h0
  · exact Int.floor_nonpos h
  · exact Int.ceil_le.mpr (by exact_mod_cast h)

/-- Claim C9: a zero displacement is not encoded as zero steps.  For
`theta = 0` the rotary script and for `rel_pos = 0` the linear script take
the non-positive branch, producing payload bytes [0x00, 0x00, 0xFF, 0xFF] —
the two's-complement encoding of -65536 steps, not of 0. -/
theorem C9_zero_displacement_not_zero :
    t_omg_movePayloadTheta 1 0 = some [0x00, 0x00, 0xFF, 0xFF] ∧
    (x_lsm_move_to_relative 0 1 "COM5").2 =
      some [0x01, 0x15, 0x00, 0x00, 0xFF, 0xFF] ∧
    decodeSteps [0x00, 0x00, 0xFF, 0xFF] = -65536 := by
  have hsteps : t_omg_steps t_omg_A_azimuth 0 = 0 := by
    unfold t_omg_steps pyInt
    rw [zero_mul, Real.tan_zero, zero_mul, zero_mul, zero_div, if_pos le_rfl]
    exact Int.floor_zero
  refine ⟨?_, ?_, by decide⟩
  · unfold t_omg_movePayloadTheta t_omg_Aof
    rw [if_pos rfl, Option.some_bind, if_neg (lt_irrefl 0), hsteps]
    decide
  · have h0 : x_lsm_data 0 = 0 := by
      unfold x_lsm_data pyIntQ
      norm_num
    simp only [x_lsm_move_to_relative]
    rw [if_neg (lt_irrefl 0), h0]
    decide

/-- Claim C5 is contradicted by the code: the source performs no domain check
at all, so `move_to_relative` still produces a frame at `theta = 90` and
`theta = -90` instead of failing with a `DomainError` (which does not exist
anywhere in the source). -/
theorem C5_no_domain_error_at_90 :
    (t_omg_move_to_relative 1 90).isSome = true ∧
    (t_omg_move_to_relative 1 (-90)).isSome = true := by
  have hpos : t_omg_steps t_omg_A_azimuth 90 = 0 := by
    unfold t_omg_steps pyInt
    rw [show (90 : ℝ) * (Real.pi / 180) = Real.pi / 2 by ring,
      Real.tan_pi_div_two, zero_mul, zero_mul, zero_div, if_pos le_rfl]
    exact Int.floor_zero
  have hneg : t_omg_steps t_omg_A_azimuth (-90) = 0 := by
    unfold t_omg_steps pyInt
    rw [show (-90 : ℝ) * (Real.pi / 180) = -(Real.pi / 2) by ring,
      Real.tan_neg, Real.tan_pi_div_two, neg_zero, zero_mul, zero_mul,
      zero_div, if_pos le_rfl]
    exact Int.floor_zero
  constructor
  · unfold t_omg_move_to_relative t_omg_movePayloadTheta t_omg_Aof
    rw [if_pos rfl, Option.some_bind, if_pos (by norm_num : (0:ℝ) < 90), hpos]
    decide
  · unfold t_omg_move_to_relative t_omg_movePayloadTheta t_omg_Aof
    rw [if_pos rfl, Option.some_bind,
      if_neg (by norm_num : ¬ (0:ℝ) < -90), hneg]
    decide

/-- Claim C6 (amended): for every angle `theta` in (-90, 90) degrees the
angle-to-steps conversion is `int(tan(theta·π/180)·A·R/L)` — truncation
toward zero, not round-to-nearest — and the result is never of the opposite
sign to `theta` (it is ≥ 0 for `theta ≥ 0` and ≤ 0 for `theta ≤ 0`; for small
nonzero `theta` it is 0, so exact sign equality does not hold, see the
counterexample). -/
theorem C6_truncation_and_sign (A theta : ℝ)
    (hA : A = t_omg_A_azimuth ∨ A = t_omg_A_elevation)
    (h1 : -90 < theta) (h2 : theta < 90) :
    t_omg_steps A theta =
      pyInt (Real.tan (theta * (Real.pi / 180)) * A * 64 / t_omg_L) ∧
    (0 ≤ theta → 0 ≤ t_omg_steps A theta) ∧
    (theta ≤ 0 → t_omg_steps A theta ≤ 0) := by
  have hApos : 0 < A := by
    rcases hA with rfl | rfl <;> norm_num [t_omg_A_azimuth, t_omg_A_elevation]
  have hLpos : (0 : ℝ) < t_omg_L := by norm_num [t_omg_L]
  have hpi := Real.pi_pos
  have htle : theta * (Real.pi / 180) ≤ Real.pi / 2 := by nlinarith
  have htge : -(Real.pi / 2) ≤ theta * (Real.pi / 180) := by nlinarith
  refine ⟨rfl, ?_, ?_⟩
  · intro h0
    apply pyInt_nonneg
    have htan : 0 ≤ Real.tan (theta * (Real.pi / 180)) :=
      Real.tan_nonneg_of_nonneg_of_le_pi_div_two
        (mul_nonneg h0 (by positivity)) htle
    exact div_nonneg (by positivity) hLpos.le
  · intro h0
    apply pyInt_nonpos
    have htan : Real.tan (theta * (Real.pi / 180)) ≤ 0 :=
      Real.tan_nonpos_of_nonpos_of_neg_pi_div_two_le
        (mul_nonpos_iff.mpr (Or.inr ⟨h0, by positivity⟩)) htge
    exact div_nonpos_iff.mpr (Or.inr ⟨by nlinarith, hLpos.le⟩)

theorem C6_truncation_and_sign_witness :
    0 ≤ t_omg_steps t_omg_A_azimuth 45 :=
  ((C6_truncation_and_sign t_omg_A_azimuth 45 (Or.inl rfl) (by norm_num)
    (by norm_num)).2.1) (by norm_num)

/-- At the tiny positive angle 1/30000 degrees the truncation yields zero
steps, although the input angle is strictly positive. -/
theorem t_omg_steps_tiny : t_omg_steps t_omg_A_azimuth (1 / 30000) = 0 := by
  unfold t_omg_steps pyInt
  set t := (1 / 30000 : ℝ) * (Real.pi / 180) with ht
  have hpi3 := Real.pi_gt_three
  have hpi4 := Real.pi_lt_four
  have htpos : 0 < t := by rw [ht]; positivity
  have htlt : t < 1 / 1000000 := by rw [ht]; nlinarith
  have hsin : Real.sin t < t := Real.sin_lt htpos
  have hcos : (1 / 2 : ℝ) ≤ Real.cos t := by
    have hq := Real.one_sub_sq_div_two_le_cos (x := t)
    nlinarith
  have hcospos : (0 : ℝ) < Real.cos t := lt_of_lt_of_le (by norm_num) hcos
  have htan : Real.tan t < 2 * t := by
    rw [Real.tan_eq_sin_div_cos, div_lt_iff₀ hcospos]
    nlinarith
  have htannn : 0 ≤ Real.tan t :=
    Real.tan_nonneg_of_nonneg_of_le_pi_div_two htpos.le (by nlinarith)
  have hLpos : (0 : ℝ) < t_omg_L := by norm_num [t_omg_L]
  have hxnn : 0 ≤ Real.tan t * t_omg_A_azimuth * 64 / t_omg_L := by
    apply div_nonneg _ hLpos.le
    have hA : (0 : ℝ) ≤ t_omg_A_azimuth := by norm_num [t_omg_A_azimuth]
    positivity
  have hxlt : Real.tan t * t_omg_A_azimuth * 64 / t_omg_L < 1 := by
    rw [div_lt_one hLpos]
    have hb : Real.tan t < 8 / 5400000 := by nlinarith
    rw [t_omg_A_azimuth, t_omg_L]
    nlinarith
  rw [if_pos hxnn, Int.floor_eq_zero_iff]
  exact ⟨hxnn, hxlt⟩

/-- Claim C6 is false as stated: at `theta = 45` the code truncates
496587.926... to 496587 while round-to-nearest gives 496588, and at the
strictly positive `theta = 1/30000` the step count is 0, so the sign of the
output does not equal the sign of the input. -/
theorem C6_counterexample :
    t_omg_steps t_omg_A_azimuth 45 ≠
      round (Real.tan ((45 : ℝ) * (Real.pi / 180)) * t_omg_A_azimuth * 64 /
        t_omg_L) ∧
    (0 : ℝ) < 1 / 30000 ∧ t_omg_steps t_omg_A_azimuth (1 / 30000) = 0 := by
  have hx : Real.tan ((45 : ℝ) * (Real.pi / 180)) * t_omg_A_azimuth * 64 /
      t_omg_L = 189200000 / 381 := by
    rw [show (45 : ℝ) * (Real.pi / 180) = Real.pi / 4 by ring,
      Real.tan_pi_div_four]
    norm_num [t_omg_A_azimuth, t_omg_L]
  have hfloor : t_omg_steps t_omg_A_azimuth 45 = 496587 := by
    unfold t_omg_steps pyInt
    rw [hx, if_pos (by norm_num), Int.floor_eq_iff]
    constructor <;> norm_num
  have hround : round (Real.tan ((45 : ℝ) * (Real.pi / 180)) *
      t_omg_A_azimuth * 64 / t_omg_L) = 496588 := by
    rw [hx, round_eq, Int.floor_eq_iff]
    constructor <;> norm_num
  refine ⟨?_, by norm_num, t_omg_steps_tiny⟩
  rw [hfloor, hround]
  decide
